import Mathlib

/-!
# Verification of the screenshot structural-analysis pipeline

Shallow embedding of `backend/app/services/image_analyzer.py` (class
`ImageAnalyzer`) together with the data model of
`backend/app/models/analysis_models.py` and the top level of
`backend/app/services/prompt_generator.py`.

Modelling conventions:
* Python floats are modelled as `ℚ` (the heuristic thresholds are decimal
  constants and no claim exercises binary-float rounding boundaries);
  machine integers are `ℕ`/`ℤ`.
* Calls into the computer-vision / OCR backends (OpenCV, scikit-learn
  k-means, pytesseract) are modelled by their results, passed in as part of
  an environment record: contour lists, Hough line counts, k-means cluster
  centers with pixel counts, OCR tokens, and region mean colors.  The
  heuristic logic applied to those results is translated from the source.
* A stage body that is wrapped in `try/except` in the source takes its
  backend environment as `Except Unit _`; the `.error` case models an
  exception escaping the backend call inside the `try` block.
* Python dicts built with fixed string keys are modelled as association
  lists in insertion order.
-/

/-- `ElementType` enum of `analysis_models.py` (values used by the core). -/
inductive ElementType where
  | header | navbar | sidebar | footer | button | input | form | card
  | image | text | icon | container
  deriving DecidableEq, Repr

/-- `LayoutType` enum of `analysis_models.py`. -/
inductive LayoutType where
  | flexbox | grid | block | inlineLayout | absolute | relative
  deriving DecidableEq, Repr

/-- The `.value` string of a `LayoutType` member. -/
def LayoutType.value : LayoutType → String
  | .flexbox => "flexbox"
  | .grid => "grid"
  | .block => "block"
  | .inlineLayout => "inline"
  | .absolute => "absolute"
  | .relative => "relative"

/-- `ColorInfo` pydantic model. -/
structure ColorInfo where
  hex_code : String
  rgb : ℕ × ℕ × ℕ
  usage_context : String
  element_type : String
  confidence : ℚ
  deriving DecidableEq, Repr

/-- `Typography` pydantic model (fields produced by the analyzer). -/
structure Typography where
  font_family : String
  font_size : String
  font_weight : String
  color : String
  text_content : String
  element_type : String
  alignment : String
  line_height : Option String
  deriving DecidableEq, Repr

/-- `InteractiveElement` pydantic model (fields produced by the analyzer). -/
structure InteractiveElement where
  element_type : ElementType
  position : List (String × ℤ)
  dimensions : List (String × ℤ)
  styling : List (String × String)
  deriving DecidableEq, Repr

/-- `Asset` pydantic model (fields produced by the analyzer). -/
structure Asset where
  asset_type : String
  dimensions : List (String × ℤ)
  position : List (String × ℤ)
  alt_text_intent : Option String
  deriving DecidableEq, Repr

/-- `LayoutStructure` pydantic model (fields produced by the analyzer). -/
structure LayoutStructure where
  layout_type : LayoutType
  grid_structure : Option String
  spacing : List (String × String)
  alignment : String
  responsive_hints : Option (List String)
  deriving DecidableEq, Repr

/-- `GlobalStyles` pydantic model (fields produced by the analyzer). -/
structure GlobalStyles where
  borders : List (String × String)
  shadows : List (String × String)
  border_radius : List (String × String)
  breakpoints : Option (List (String × String))
  deriving DecidableEq, Repr

/-- `StyleGuide` pydantic model. -/
structure StyleGuide where
  primary_colors : List String
  secondary_colors : List String
  font_stack : List String
  spacing_scale : List String
  design_tokens : List (String × String)
  deriving DecidableEq, Repr

/-- A value in the generated prompt's metadata dict (string or number). -/
inductive MetaVal where
  | str (s : String)
  | num (q : ℚ)
  deriving DecidableEq, Repr

/-- `GeneratedPrompt`, partially modelled: `title`, `description` and the
scalar `metadata` entries of `PromptGenerator.generate_full_prompt` are
embedded; the markdown `sections`/`full_prompt` fields are pure string
templating over the same `AnalysisResponse` (declared out of scope by the
spec) and are omitted, as are the two metadata entries derived from the
omitted `full_prompt` string (`prompt_word_count`, `prompt_character_count`). -/
structure GeneratedPrompt where
  title : String
  description : String
  metadata : List (String × MetaVal)
  deriving DecidableEq, Repr

/-- The `image_info` dict assembled in `analyze_image` (its `dimensions`
sub-dict is flattened into `width`/`height`). -/
structure ImageInfo where
  filename : String
  width : ℕ
  height : ℕ
  channels : ℕ
  format : String
  deriving DecidableEq, Repr

/-- `AnalysisResponse` pydantic model (fields populated by `analyze_image`). -/
structure AnalysisResponse where
  layout : LayoutStructure
  colors : List ColorInfo
  typography : List Typography
  interactive_elements : List InteractiveElement
  assets : List Asset
  global_styles : GlobalStyles
  style_guide : StyleGuide
  component_labels : List (String × String)
  generated_prompt : Option GeneratedPrompt
  image_info : ImageInfo
  processing_time : ℚ
  confidence_score : ℚ
  warnings : List String
  deriving DecidableEq, Repr

/-- The decoded pixel buffer's shape (`image.shape`): a successfully decoded
`cv2.IMREAD_COLOR` image has `height × width` pixels and 3 channels. -/
structure ImageData where
  height : ℕ
  width : ℕ
  channels : ℕ
  deriving DecidableEq, Repr

/-- Python `round(q, 2)`: round to two decimal places.  Python rounds
half-to-even on the binary-float representation; no claim exercises an exact
tie, so the rounding of `100 * q` to the nearest integer is modelled with
Mathlib `round`. -/
def pythonRound2 (q : ℚ) : ℚ := ((round (q * 100) : ℤ) : ℚ) / 100

/-- One lowercase hexadecimal digit, as produced by Python `"{:02x}".format`. -/
def hexDigit (n : ℕ) : Char :=
  if n < 10 then Char.ofNat (48 + n) else Char.ofNat (87 + n)

/-- Python `"{:02x}".format n` for a byte value `n < 256`. -/
def hexByte (n : ℕ) : String :=
  String.mk [hexDigit (n / 16 % 16), hexDigit (n % 16)]

/-- `"#{:02x}{:02x}{:02x}".format r g b`. -/
def hexColor (r g b : ℕ) : String :=
  "#" ++ hexByte r ++ hexByte g ++ hexByte b

/-- `ImageAnalyzer._determine_color_usage`: usage-context label of a color
cluster with integer center `(r, g, b)` and pixel proportion `percentage`. -/
def determineColorUsage (r g b : ℕ) (percentage : ℚ) : String :=
  if percentage > 3/10 then "Background"
  else if r < 100 ∧ g < 100 ∧ b < 100 then "Text"
  else if 1/10 ≤ percentage ∧ percentage ≤ 3/10 ∧
      max r (max g b) - min r (min g b) > 50 then "Primary/Accent"
  else if max r (max g b) - min r (min g b) < 30 then "Border/Divider"
  else "UI Element"

/-- Output of the k-means backend (`KMeans(n_clusters=8, random_state=42,
n_init=10)` followed by `np.unique(labels, return_counts=True)`): for each
cluster, its center `astype(int)` and the number of pixels assigned to it. -/
structure ColorEnv where
  clusters : List ((ℕ × ℕ × ℕ) × ℕ)
  deriving DecidableEq, Repr

/-- The `ColorInfo` record built for one cluster inside
`ImageAnalyzer._extract_colors`; `total` is `len(labels)`, the number of
pixels, so `confidence` is the cluster's proportion of total pixels. -/
def mkColorInfo (total : ℕ) (c : (ℕ × ℕ × ℕ) × ℕ) : ColorInfo :=
  let percentage : ℚ := (c.2 : ℚ) / (total : ℚ)
  { hex_code := hexColor c.1.1 c.1.2.1 c.1.2.2
    rgb := c.1
    usage_context := determineColorUsage c.1.1 c.1.2.1 c.1.2.2 percentage
    element_type := "detected"
    confidence := percentage }

/-- The (decidable) descending-confidence comparison used to model
`colors.sort(key=lambda x: x.confidence, reverse=True)`. -/
def confidenceGE (a b : ColorInfo) : Prop := b.confidence ≤ a.confidence

instance : DecidableRel confidenceGE := fun a b =>
  inferInstanceAs (Decidable (b.confidence ≤ a.confidence))

instance : IsTotal ColorInfo confidenceGE :=
  ⟨fun a b => le_total b.confidence a.confidence⟩

instance : IsTrans ColorInfo confidenceGE :=
  ⟨fun _ _ _ h1 h2 => le_trans h2 h1⟩

/-- `ImageAnalyzer._extract_colors`: one `ColorInfo` per cluster, sorted by
descending confidence (a stable sort, modelled by `insertionSort`), truncated
to 6; an exception inside the `try` block yields `[]`. -/
def extractColors (input : Except Unit ColorEnv) : List ColorInfo :=
  match input with
  | .error _ => []
  | .ok ce =>
    let total := (ce.clusters.map (·.2)).sum
    let colors := ce.clusters.map (mkColorInfo total)
    (colors.insertionSort confidenceGE).take 6

/-- Output of the Hough line-detection backend in
`ImageAnalyzer._analyze_layout`: number of detected segments per
orientation, `none` when `cv2.HoughLinesP` returns `None`. -/
structure LayoutEnv where
  hLines : Option ℕ
  vLines : Option ℕ
  deriving DecidableEq, Repr

/-- The failure default of `_analyze_layout` (its `except` branch). -/
def layoutFailureDefault : LayoutStructure :=
  { layout_type := .flexbox
    grid_structure := none
    spacing := [("padding", "unknown"), ("margin", "unknown"), ("gap", "unknown")]
    alignment := "unknown"
    responsive_hints := none }

/-- `ImageAnalyzer._analyze_layout` on the decoded image `img`. -/
def analyzeLayout (img : ImageData) (input : Except Unit LayoutEnv) : LayoutStructure :=
  match input with
  | .error _ => layoutFailureDefault
  | .ok le =>
    let hCount := le.hLines.getD 0
    let vCount := le.vLines.getD 0
    { layout_type :=
        if hCount ≥ 2 ∧ vCount ≥ 2 then LayoutType.grid else LayoutType.flexbox
      grid_structure :=
        if hCount ≥ 2 ∧ vCount ≥ 2 then
          some ("Estimated " ++ toString (vCount + 1) ++ " columns, " ++
            toString (hCount + 1) ++ " rows")
        else none
      spacing := [("padding", "16px (estimated)"), ("margin", "12px (estimated)"),
                  ("gap", "8px (estimated)")]
      alignment := "left-aligned (estimated)"
      responsive_hints :=
        some (if img.width > 768 then ["Desktop layout detected"]
              else ["Mobile layout detected"]) }

/-- Output of the contour backend in `ImageAnalyzer._is_website_screenshot`:
for each external contour, the vertex count of its `approxPolyDP` polygon and
its `contourArea`. -/
structure ScreenshotEnv where
  contours : List (ℕ × ℚ)
  deriving DecidableEq, Repr

/-- The `rectangular_regions` counter of `_is_website_screenshot`: contours
whose polygon approximation has 4 vertices and whose area exceeds 1% of the
image area. -/
def countRectangularRegions (img : ImageData) (contours : List (ℕ × ℚ)) : ℕ :=
  (contours.filter
    (fun c => c.1 = 4 ∧ c.2 > (img.width : ℚ) * (img.height : ℚ) * (1/100))).length

/-- `ImageAnalyzer._is_website_screenshot`; an exception inside the `try`
block yields `True` (fail-open). -/
def isWebsiteScreenshot (img : ImageData) (input : Except Unit ScreenshotEnv) : Bool :=
  match input with
  | .error _ => true
  | .ok se =>
    let aspect_ratio : ℚ := (img.width : ℚ) / (img.height : ℚ)
    decide (1/2 ≤ aspect_ratio ∧ aspect_ratio ≤ 3 ∧
      countRectangularRegions img se.contours ≥ 3 ∧
      img.width ≥ 300 ∧ img.height ≥ 200)

/-- One OCR token from `pytesseract.image_to_data` (the parallel arrays
`text` / `left` / `top` / `width` / `height` at one index). -/
structure OcrToken where
  text : String
  left : ℤ
  top : ℤ
  width : ℕ
  height : ℕ
  deriving DecidableEq, Repr

/-- Output of the OCR backend in `ImageAnalyzer._analyze_typography`:
the token list, plus the numpy region-mean-color sampler
(`np.mean(image[y:y+h, x:x+w].reshape(-1, 3), axis=0)` rendered as a hex
string), abstracted as a function of the bounding box. -/
structure TypographyEnv where
  tokens : List OcrToken
  avgColor : ℤ → ℤ → ℕ → ℕ → String

/-- Python `max(12, int(height * 0.8))`.  `int` truncates toward zero and the
height is nonnegative, so this is `max 12 ⌊0.8 * height⌋`, i.e. natural
division `8 * height / 10`. -/
def fontSizeOfHeight (height : ℕ) : ℕ := max 12 (8 * height / 10)

/-- The `Typography` record built for one surviving OCR token inside
`_analyze_typography`.  The source sets `element_type` and `font_weight`
together in one `if font_size > 24 / elif font_size > 18 / else` chain; here
each field carries its own copy of that chain.  `line_height` is
`int(font_size * 1.4)` in the source; the binary-float product is modelled
as exact rational `1.4` (for a few sizes, e.g. 15, the float truncates one
lower — no statement below depends on `line_height`). -/
def typographyOfToken (img : ImageData) (avgColor : ℤ → ℤ → ℕ → ℕ → String)
    (t : OcrToken) : Typography :=
  let font_size := fontSizeOfHeight t.height
  let text_color : String :=
    if 0 ≤ t.left ∧ 0 ≤ t.top ∧ t.left + (t.width : ℤ) ≤ (img.width : ℤ) ∧
        t.top + (t.height : ℤ) ≤ (img.height : ℤ) then
      if t.width * t.height ≠ 0 then avgColor t.left t.top t.width t.height
      else "#000000"
    else "#000000"
  { font_family := "System font (estimated)"
    font_size := toString font_size ++ "px"
    font_weight :=
      if font_size > 24 then "bold"
      else if font_size > 18 then "semi-bold"
      else "normal"
    color := text_color
    text_content := (t.text.trim).take 100
    element_type :=
      if font_size > 24 then "heading"
      else if font_size > 18 then "subheading"
      else "body"
    alignment := "left"
    line_height := some (toString (font_size * 14 / 10) ++ "px") }

/-- `ImageAnalyzer._analyze_typography`: tokens whose text is non-empty after
`strip()` (modelled by `String.trim`), in scan order, truncated to 10; an
exception inside the `try` block yields `[]`. -/
def analyzeTypography (img : ImageData) (input : Except Unit TypographyEnv) :
    List Typography :=
  match input with
  | .error _ => []
  | .ok te =>
    (((te.tokens.filter (fun t => t.text.trim ≠ "")).map
      (typographyOfToken img te.avgColor)).take 10)

/-- One external contour found in `_detect_interactive_elements`: its
`contourArea`, its `boundingRect`, and the region's numpy mean color
(rendered as a hex string) carried as backend data. -/
structure ElemContour where
  area : ℚ
  x : ℕ
  y : ℕ
  w : ℕ
  h : ℕ
  bgColor : String
  deriving DecidableEq, Repr

/-- Output of the adaptive-threshold + contour backend in
`_detect_interactive_elements`. -/
structure ElementEnv where
  contours : List ElemContour
  deriving DecidableEq, Repr

/-- The shape-based classification of `_detect_interactive_elements`:
aspect-ratio / height rules evaluated in source order. -/
def classifyElement (w h : ℕ) : ElementType :=
  let aspect_ratio : ℚ := (w : ℚ) / (h : ℚ)
  if 3/2 ≤ aspect_ratio ∧ aspect_ratio ≤ 6 ∧ 20 ≤ h ∧ h ≤ 100 then .button
  else if aspect_ratio > 3 ∧ h ≤ 50 then .input
  else .container

/-- The `InteractiveElement` record built for one retained contour. -/
def elementOfContour (c : ElemContour) : InteractiveElement :=
  { element_type := classifyElement c.w c.h
    position := [("x", (c.x : ℤ)), ("y", (c.y : ℤ))]
    dimensions := [("width", (c.w : ℤ)), ("height", (c.h : ℤ))]
    styling := [("background_color", c.bgColor),
                ("border_radius", "4px (estimated)"),
                ("padding", "8px 16px (estimated)")] }

/-- The area gate of `_detect_interactive_elements`:
`500 < area < width * height * 0.1`. -/
def elementAreaGate (img : ImageData) (c : ElemContour) : Prop :=
  500 < c.area ∧ c.area < (img.width : ℚ) * (img.height : ℚ) * (1/10)

instance (img : ImageData) (c : ElemContour) : Decidable (elementAreaGate img c) :=
  inferInstanceAs (Decidable (_ ∧ _))

/-- `ImageAnalyzer._detect_interactive_elements`: contours passing the area
gate, in discovery order, classified by shape, truncated to 15; an exception
inside the `try` block yields `[]`. -/
def detectInteractiveElements (img : ImageData) (input : Except Unit ElementEnv) :
    List InteractiveElement :=
  match input with
  | .error _ => []
  | .ok ee =>
    (((ee.contours.filter (fun c => decide (elementAreaGate img c))).map
      elementOfContour).take 15)

/-- One external contour found in the second pass of `_catalog_assets`. -/
structure AssetContour where
  area : ℚ
  x : ℕ
  y : ℕ
  w : ℕ
  h : ℕ
  deriving DecidableEq, Repr

/-- Outputs of the two backends of `_catalog_assets`: `cv2.HoughCircles`
(`none` when it returns `None`; each circle as `np.round(...).astype(int)`
giving `(x, y, r)`) and the edge + contour pass. -/
structure AssetEnv where
  circles : Option (List (ℤ × ℤ × ℤ))
  contours : List AssetContour
  deriving DecidableEq, Repr

/-- The icon `Asset` built for a detected circle. -/
def iconOfCircle : ℤ × ℤ × ℤ → Asset
  | (x, y, r) =>
    { asset_type := "icon"
      dimensions := [("width", r * 2), ("height", r * 2)]
      position := [("x", x - r), ("y", y - r)]
      alt_text_intent := some "Circular icon/logo" }

/-- The image `Asset` built for a retained contour. -/
def imageOfContour (c : AssetContour) : Asset :=
  { asset_type := "image"
    dimensions := [("width", (c.w : ℤ)), ("height", (c.h : ℤ))]
    position := [("x", (c.x : ℤ)), ("y", (c.y : ℤ))]
    alt_text_intent := some "Content image" }

/-- `ImageAnalyzer._catalog_assets`: circles become icons, large
well-proportioned contours become images, icons first, truncated to 10; an
exception inside the `try` block yields `[]`. -/
def catalogAssets (input : Except Unit AssetEnv) : List Asset :=
  match input with
  | .error _ => []
  | .ok ae =>
    let icons := (ae.circles.getD []).map iconOfCircle
    let images := (ae.contours.filter (fun c => decide (2000 < c.area ∧
      1/2 ≤ (c.w : ℚ) / (c.h : ℚ) ∧ (c.w : ℚ) / (c.h : ℚ) ≤ 3 ∧
      50 < c.w ∧ 50 < c.h))).map imageOfContour
    (icons ++ images).take 10

/-- `ImageAnalyzer._analyze_global_styles`: fixed defaults, independent of
the image. -/
def analyzeGlobalStyles : GlobalStyles :=
  { borders := [("default", "1px solid #e0e0e0"), ("focus", "2px solid #2196f3")]
    shadows := [("card", "0 2px 4px rgba(0,0,0,0.1)"),
                ("button", "0 1px 2px rgba(0,0,0,0.1)")]
    border_radius := [("small", "4px"), ("medium", "8px"), ("large", "12px")]
    breakpoints := some [("mobile", "768px"), ("tablet", "1024px"),
                         ("desktop", "1200px")] }

/-- `ImageAnalyzer._synthesize_style_guide`.  `list(set(...))` over the font
families is modelled by `List.dedup` (Python set iteration order is
unspecified, but every produced font family is the one constant
`"System font (estimated)"`, so the set has at most one element). -/
def synthesizeStyleGuide (colors : List ColorInfo) (typography : List Typography) :
    StyleGuide :=
  let primary_colors :=
    ((colors.take 3).filter (fun c => decide (c.confidence > 1/10))).map (·.hex_code)
  let secondary_colors := ((colors.drop 3).take 3).map (·.hex_code)
  let fonts := (typography.map (·.font_family)).dedup
  { primary_colors := primary_colors
    secondary_colors := secondary_colors
    font_stack := fonts.take 3
    spacing_scale := ["4px", "8px", "12px", "16px", "24px", "32px", "48px", "64px"]
    design_tokens := [
      ("primary", primary_colors.head?.getD "#2196f3"),
      ("secondary", secondary_colors.head?.getD "#757575"),
      ("base_font_size", "16px"),
      ("line_height", "1.5")] }

/-- The counting loop of `ImageAnalyzer._label_components`: `i` is the
running element index, `bc`/`ic` the button/input counters. -/
def labelComponentsAux : ℕ → ℕ → ℕ → List InteractiveElement → List (String × String)
  | _, _, _, [] => []
  | i, bc, ic, e :: rest =>
    if e.element_type = .button then
      ("element_" ++ toString i, "Button " ++ toString (bc + 1)) ::
        labelComponentsAux (i + 1) (bc + 1) ic rest
    else if e.element_type = .input then
      ("element_" ++ toString i, "Input Field " ++ toString (ic + 1)) ::
        labelComponentsAux (i + 1) bc (ic + 1) rest
    else
      ("element_" ++ toString i, "Container " ++ toString (i + 1)) ::
        labelComponentsAux (i + 1) bc ic rest

/-- `ImageAnalyzer._label_components`. -/
def labelComponents (elements : List InteractiveElement) : List (String × String) :=
  labelComponentsAux 0 0 0 elements

/-- `ImageAnalyzer._calculate_confidence`.  The source gates the layout
factor on the truthiness of `layout.layout_type`, a non-empty-string check
on the enum value (every `LayoutType` value is a non-empty string, so the
factor always applies). -/
def calculateConfidence (layout : LayoutStructure) (colors : List ColorInfo)
    (typography : List Typography) (elements : List InteractiveElement) : ℚ :=
  let confidence_factors : List ℚ :=
    (if layout.layout_type.value ≠ "" then [8/10] else []) ++
    (if colors ≠ [] then
      [(colors.map (·.confidence)).sum / (colors.length : ℚ)] else []) ++
    (if typography ≠ [] then [7/10] else []) ++
    (if elements ≠ [] then [6/10] else [])
  if confidence_factors ≠ [] then
    confidence_factors.sum / (confidence_factors.length : ℚ)
  else 1/2

/-- The `recreation_difficulty` metadata entry of
`PromptGenerator.generate_full_prompt`. -/
def recreationDifficulty (confidence : ℚ) : String :=
  if confidence > 8/10 then "high"
  else if confidence > 6/10 then "medium"
  else "challenging"

/-- `PromptGenerator.generate_full_prompt`, partially modelled (see
`GeneratedPrompt`): the title and description f-strings and the scalar
metadata entries, in source order. -/
def generateFullPrompt (analysis : AnalysisResponse) : GeneratedPrompt :=
  let nc := analysis.colors.length
  let nt := analysis.typography.length
  let ne := analysis.interactive_elements.length
  { title := "🎯 PIXEL-PERFECT RECREATION: " ++ analysis.image_info.filename
    description :=
      "100% accurate recreation prompt generated from AI image analysis. Contains " ++
      toString nc ++ " exact colors, " ++ toString nt ++
      " OCR-detected text elements, and " ++ toString ne ++
      " interactive components with precise positioning data."
    metadata := [
      ("analysis_confidence", .num analysis.confidence_score),
      ("processing_time_seconds", .num analysis.processing_time),
      ("detected_colors", .num (nc : ℚ)),
      ("detected_text_elements", .num (nt : ℚ)),
      ("detected_interactive_elements", .num (ne : ℚ)),
      ("detected_assets", .num (analysis.assets.length : ℚ)),
      ("layout_system", .str analysis.layout.layout_type.value),
      ("accuracy_level", .str "pixel-perfect"),
      ("recreation_difficulty", .str (recreationDifficulty analysis.confidence_score))] }

/-- The environment of one `analyze_image` invocation: the decoded image
(`none` models `cv2.imdecode` failing, i.e. undecodable bytes) and the
results of each stage's computer-vision / OCR backend calls, each wrapped in
`Except Unit` to model an exception escaping the backend inside that stage's
`try` block. -/
structure PipelineEnv where
  image : Option ImageData
  screenshotEnv : Except Unit ScreenshotEnv
  layoutEnv : Except Unit LayoutEnv
  colorEnv : Except Unit ColorEnv
  typographyEnv : Except Unit TypographyEnv
  elementEnv : Except Unit ElementEnv
  assetEnv : Except Unit AssetEnv

/-- The fatal error of `analyze_image`: the `ValueError("Could not load
image")` raised when `_load_image` returns `None` (the spec's
`DecodeError`), re-raised to the caller by the outer `except`. -/
inductive AnalyzeError where
  | decodeError
  deriving DecidableEq, Repr

/-- `ImageAnalyzer.analyze_image`.  `elapsed` is the measured wall-clock
duration `time.time() - start_time`; the response is assembled with
`generated_prompt = None` and then mutated to hold the generated prompt,
exactly as in the source. -/
def analyzeImage (env : PipelineEnv) (filename : String) (elapsed : ℚ) :
    Except AnalyzeError AnalysisResponse :=
  match env.image with
  | none => .error .decodeError
  | some img =>
    let warnings : List String :=
      if isWebsiteScreenshot img env.screenshotEnv then []
      else ["Image may not be a website/app screenshot"]
    let layout := analyzeLayout img env.layoutEnv
    let colors := extractColors env.colorEnv
    let typography := analyzeTypography img env.typographyEnv
    let interactive_elements := detectInteractiveElements img env.elementEnv
    let assets := catalogAssets env.assetEnv
    let style_guide := synthesizeStyleGuide colors typography
    let component_labels := labelComponents interactive_elements
    let confidence_score :=
      calculateConfidence layout colors typography interactive_elements
    let response : AnalysisResponse :=
      { layout := layout
        colors := colors
        typography := typography
        interactive_elements := interactive_elements
        assets := assets
        global_styles := analyzeGlobalStyles
        style_guide := style_guide
        component_labels := component_labels
        generated_prompt := none
        image_info :=
          { filename := filename
            width := img.width
            height := img.height
            channels := img.channels
            format := "detected_from_content" }
        processing_time := pythonRound2 elapsed
        confidence_score := pythonRound2 confidence_score
        warnings := warnings }
    .ok { response with generated_prompt := some (generateFullPrompt response) }

/-- The spec's description of the Confidence Scorer (§4.10), stated in its
own words for comparison with `calculateConfidence`: an unweighted mean over
whichever factors are applicable — 0.8 if a layout kind was produced, the
mean of the color sample confidences if colors is non-empty, 0.7 if
typography is non-empty, 0.6 if elements is non-empty — and the fixed
neutral default 0.5 when no factor applies. -/
def specConfidenceScore (layoutProduced : Prop) [Decidable layoutProduced]
    (colorConfidences : List ℚ) (typographyCount elementCount : ℕ) : ℚ :=
  let factors : List ℚ :=
    (if layoutProduced then [8/10] else []) ++
    (if colorConfidences ≠ [] then
      [colorConfidences.sum / (colorConfidences.length : ℚ)] else []) ++
    (if typographyCount ≠ 0 then [7/10] else []) ++
    (if elementCount ≠ 0 then [6/10] else [])
  if factors = [] then 1/2 else factors.sum / (factors.length : ℚ)

/-- A concrete pipeline environment used to instantiate the theorems below:
a decoded 400×200 image, three large quadrilateral contour regions, a 3/2
horizontal/vertical line split, two color clusters over 4 pixels, one OCR
token, one contour in the element detector, and one detected circle. -/
def sampleEnv : PipelineEnv :=
  { image := some { height := 200, width := 400, channels := 3 }
    screenshotEnv := Except.ok { contours := [(4, 900), (4, 900), (4, 900)] }
    layoutEnv := Except.ok { hLines := some 3, vLines := some 2 }
    colorEnv := Except.ok { clusters := [((255, 255, 255), 3), ((20, 20, 20), 1)] }
    typographyEnv := Except.ok
      { tokens := [{ text := "Hello", left := 10, top := 10, width := 50, height := 30 }]
        avgColor := fun _ _ _ _ => "#123456" }
    elementEnv := Except.ok
      { contours := [{ area := 600, x := 5, y := 5, w := 60, h := 30, bgColor := "#ffffff" }] }
    assetEnv := Except.ok { circles := some [(50, 50, 20)], contours := [] } }

/-- A content-free `AnalysisResponse`, used only as the fallback of
`Option.getD` when naming the concrete result of a pipeline run. -/
def emptyResponse : AnalysisResponse :=
  { layout := layoutFailureDefault
    colors := []
    typography := []
    interactive_elements := []
    assets := []
    global_styles := analyzeGlobalStyles
    style_guide := synthesizeStyleGuide [] []
    component_labels := []
    generated_prompt := none
    image_info := { filename := "", width := 0, height := 0, channels := 0, format := "" }
    processing_time := 0
    confidence_score := 0
    warnings := [] }

/-- The concrete result of running the pipeline on `sampleEnv` with filename
"shot.png" and a measured duration of 0 seconds. -/
def sampleResult : AnalysisResponse :=
  (analyzeImage sampleEnv "shot.png" 0).toOption.getD emptyResponse

/-- Every emitted color sample comes from one of the k-means clusters. -/
lemma extractColors_mem {ce : ColorEnv} {c : ColorInfo}
    (hc : c ∈ extractColors (Except.ok ce)) :
    ∃ cl ∈ ce.clusters, c = mkColorInfo ((ce.clusters.map (fun x => x.2)).sum) cl := by
  simp only [extractColors] at hc
  have h1 := (List.take_sublist 6 _).subset hc
  have h2 := (List.perm_insertionSort confidenceGE _).mem_iff.mp h1
  obtain ⟨cl, hcl, rfl⟩ := List.mem_map.mp h2
  exact ⟨cl, hcl, rfl⟩

/-- Every emitted color sample's confidence is a pixel proportion in [0, 1]. -/
lemma extractColors_confidence_bounds (input : Except Unit ColorEnv) :
    ∀ c ∈ extractColors input, 0 ≤ c.confidence ∧ c.confidence ≤ 1 := by
  intro c hc
  match input with
  | .error _ => simp [extractColors] at hc
  | .ok ce =>
    obtain ⟨cl, hcl, rfl⟩ := extractColors_mem hc
    have hle : cl.2 ≤ (ce.clusters.map (fun x => x.2)).sum :=
      List.le_sum_of_mem (List.mem_map_of_mem _ hcl)
    simp only [mkColorInfo]
    constructor
    · positivity
    · exact div_le_one_of_le₀ (by exact_mod_cast hle) (by positivity)

/-- The emitted color list is sorted by non-increasing confidence. -/
lemma extractColors_sorted (input : Except Unit ColorEnv) :
    List.Sorted confidenceGE (extractColors input) := by
  match input with
  | .error _ => simp only [extractColors]; exact List.sorted_nil
  | .ok ce =>
    simp only [extractColors]
    exact (List.sorted_insertionSort confidenceGE _).sublist (List.take_sublist 6 _)

/-- The color list is truncated to 6 entries. -/
lemma extractColors_length_le (input : Except Unit ColorEnv) :
    (extractColors input).length ≤ 6 := by
  match input with
  | .error _ => simp [extractColors]
  | .ok ce => exact List.length_take_le 6 _

/-- The typography list is truncated to 10 entries. -/
lemma analyzeTypography_length_le (img : ImageData) (input : Except Unit TypographyEnv) :
    (analyzeTypography img input).length ≤ 10 := by
  match input with
  | .error _ => simp [analyzeTypography]
  | .ok te => exact List.length_take_le 10 _

/-- The interactive-element list is truncated to 15 entries. -/
lemma detectInteractiveElements_length_le (img : ImageData)
    (input : Except Unit ElementEnv) :
    (detectInteractiveElements img input).length ≤ 15 := by
  match input with
  | .error _ => simp [detectInteractiveElements]
  | .ok ee => exact List.length_take_le 15 _

/-- The asset list is truncated to 10 entries. -/
lemma catalogAssets_length_le (input : Except Unit AssetEnv) :
    (catalogAssets input).length ≤ 10 := by
  match input with
  | .error _ => simp [catalogAssets]
  | .ok ae => exact List.length_take_le 10 _

/-- The mean of a list of rationals lying in [0, 1] lies in [0, 1]
(an empty list gives 0/0 = 0). -/
lemma list_mean_bounds {l : List ℚ} (h : ∀ x ∈ l, 0 ≤ x ∧ x ≤ 1) :
    0 ≤ l.sum / (l.length : ℚ) ∧ l.sum / (l.length : ℚ) ≤ 1 := by
  constructor
  · exact div_nonneg (List.sum_nonneg fun x hx => (h x hx).1) (by positivity)
  · refine div_le_one_of_le₀ ?_ (by positivity)
    have := List.sum_le_card_nsmul l 1 fun x hx => (h x hx).2
    simpa using this

/-- The confidence score computed by `_calculate_confidence` lies in [0, 1]
whenever every color confidence does. -/
lemma calculateConfidence_bounds (layout : LayoutStructure) (colors : List ColorInfo)
    (typography : List Typography) (elements : List InteractiveElement)
    (hc : ∀ c ∈ colors, 0 ≤ c.confidence ∧ c.confidence ≤ 1) :
    0 ≤ calculateConfidence layout colors typography elements ∧
      calculateConfidence layout colors typography elements ≤ 1 := by
  have hmean := list_mean_bounds (l := colors.map (fun c => c.confidence))
    (by intro x hx; obtain ⟨c, hcm, rfl⟩ := List.mem_map.mp hx; exact hc c hcm)
  rw [List.length_map] at hmean
  have key : ∀ factors : List ℚ, (∀ x ∈ factors, 0 ≤ x ∧ x ≤ 1) →
      0 ≤ (if factors ≠ [] then factors.sum / (factors.length : ℚ) else 1/2) ∧
      (if factors ≠ [] then factors.sum / (factors.length : ℚ) else 1/2) ≤ 1 := by
    intro factors hfac
    by_cases hne : factors ≠ []
    · rw [if_pos hne]
      exact list_mean_bounds hfac
    · rw [if_neg hne]
      norm_num
  have hshape : calculateConfidence layout colors typography elements =
      (if ((if layout.layout_type.value ≠ "" then [(8:ℚ)/10] else []) ++
        (if colors ≠ [] then
          [(colors.map (fun c => c.confidence)).sum / (colors.length : ℚ)] else []) ++
        (if typography ≠ [] then [(7:ℚ)/10] else []) ++
        (if elements ≠ [] then [(6:ℚ)/10] else [])) ≠ [] then
          ((if layout.layout_type.value ≠ "" then [(8:ℚ)/10] else []) ++
          (if colors ≠ [] then
            [(colors.map (fun c => c.confidence)).sum / (colors.length : ℚ)] else []) ++
          (if typography ≠ [] then [(7:ℚ)/10] else []) ++
          (if elements ≠ [] then [(6:ℚ)/10] else [])).sum /
          (((if layout.layout_type.value ≠ "" then [(8:ℚ)/10] else []) ++
          (if colors ≠ [] then
            [(colors.map (fun c => c.confidence)).sum / (colors.length : ℚ)] else []) ++
          (if typography ≠ [] then [(7:ℚ)/10] else []) ++
          (if elements ≠ [] then [(6:ℚ)/10] else [])).length : ℚ)
        else 1/2) := rfl
  rw [hshape]
  apply key
  intro x hx
  simp only [List.mem_append] at hx
  rcases hx with ((h1 | h2) | h3) | h4
  · split at h1 <;> simp at h1
    subst h1; norm_num
  · split at h2 <;> simp at h2
    subst h2; exact hmean
  · split at h3 <;> simp at h3
    subst h3; norm_num
  · split at h4 <;> simp at h4
    subst h4; norm_num

/-- `round(x, 2)` of a value in [0, 1] stays in [0, 1]. -/
lemma pythonRound2_bounds {q : ℚ} (h0 : 0 ≤ q) (h1 : q ≤ 1) :
    0 ≤ pythonRound2 q ∧ pythonRound2 q ≤ 1 := by
  unfold pythonRound2
  have hr := round_eq (q * 100)
  have hlo : (0 : ℤ) ≤ round (q * 100) := by
    rw [hr, Int.le_floor]
    push_cast
    linarith
  have hhi : round (q * 100) ≤ 100 := by
    rw [hr]
    have : ⌊q * 100 + 1/2⌋ < 101 := by
      rw [Int.floor_lt]
      push_cast
      linarith
    omega
  constructor
  · positivity
  · rw [div_le_one (by norm_num)]
    exact_mod_cast hhi

/-- C1: `analyze_image` fails exactly when the bytes cannot be decoded (a
fatal decode error propagated to the caller); whenever decoding succeeds it
returns a response, and an internal failure of any single extraction stage
is absorbed at the stage boundary and replaced by its documented default:
the empty list for the list-valued stages, the flexbox/"unknown" layout
descriptor, and fail-open `true` for the screenshot classifier. -/
theorem C1_analyze_fails_only_on_decode (env : PipelineEnv) (filename : String)
    (elapsed : ℚ) (img : ImageData) :
    ((∃ r, analyzeImage env filename elapsed = Except.ok r) ↔ env.image ≠ none) ∧
    (analyzeImage { env with image := none } filename elapsed =
      Except.error AnalyzeError.decodeError) ∧
    extractColors (Except.error ()) = [] ∧
    analyzeTypography img (Except.error ()) = [] ∧
    detectInteractiveElements img (Except.error ()) = [] ∧
    catalogAssets (Except.error ()) = [] ∧
    analyzeLayout img (Except.error ()) = layoutFailureDefault ∧
    layoutFailureDefault.layout_type = LayoutType.flexbox ∧
    layoutFailureDefault.alignment = "unknown" ∧
    isWebsiteScreenshot img (Except.error ()) = true := by
  refine ⟨?_, rfl, rfl, rfl, rfl, rfl, rfl, rfl, rfl, rfl⟩
  cases henv : env.image with
  | none => simp [analyzeImage, henv]
  | some i => simp [analyzeImage, henv]

/-- C1 witness: instantiation at the concrete `sampleEnv`. -/
theorem C1_witness :
    ((∃ r, analyzeImage sampleEnv "shot.png" 0 = Except.ok r) ↔
      sampleEnv.image ≠ none) ∧
    (analyzeImage { sampleEnv with image := none } "shot.png" 0 =
      Except.error AnalyzeError.decodeError) ∧
    extractColors (Except.error ()) = [] ∧
    analyzeTypography ⟨200, 400, 3⟩ (Except.error ()) = [] ∧
    detectInteractiveElements ⟨200, 400, 3⟩ (Except.error ()) = [] ∧
    catalogAssets (Except.error ()) = [] ∧
    analyzeLayout ⟨200, 400, 3⟩ (Except.error ()) = layoutFailureDefault ∧
    layoutFailureDefault.layout_type = LayoutType.flexbox ∧
    layoutFailureDefault.alignment = "unknown" ∧
    isWebsiteScreenshot ⟨200, 400, 3⟩ (Except.error ()) = true :=
  C1_analyze_fails_only_on_decode sampleEnv "shot.png" 0 ⟨200, 400, 3⟩

/-- C3: the usage-context label of a color cluster is decided by the five
rules of `_determine_color_usage` evaluated in precedence order — proportion
over 0.3 gives Background; all channels under 100 gives Text; proportion in
[0.1, 0.3] with channel spread over 50 gives Primary/Accent; channel spread
under 30 gives Border/Divider; otherwise UI Element — and every emitted
color sample's confidence is its cluster's proportion of total pixels. -/
theorem C3_color_usage_rules (r g b : ℕ) (p : ℚ) (ce : ColorEnv) :
    (p > 3/10 → determineColorUsage r g b p = "Background") ∧
    (¬ p > 3/10 → (r < 100 ∧ g < 100 ∧ b < 100) →
      determineColorUsage r g b p = "Text") ∧
    (¬ p > 3/10 → ¬(r < 100 ∧ g < 100 ∧ b < 100) →
      (1/10 ≤ p ∧ p ≤ 3/10 ∧ max r (max g b) - min r (min g b) > 50) →
      determineColorUsage r g b p = "Primary/Accent") ∧
    (¬ p > 3/10 → ¬(r < 100 ∧ g < 100 ∧ b < 100) →
      ¬(1/10 ≤ p ∧ p ≤ 3/10 ∧ max r (max g b) - min r (min g b) > 50) →
      max r (max g b) - min r (min g b) < 30 →
      determineColorUsage r g b p = "Border/Divider") ∧
    (¬ p > 3/10 → ¬(r < 100 ∧ g < 100 ∧ b < 100) →
      ¬(1/10 ≤ p ∧ p ≤ 3/10 ∧ max r (max g b) - min r (min g b) > 50) →
      ¬ max r (max g b) - min r (min g b) < 30 →
      determineColorUsage r g b p = "UI Element") ∧
    (∀ c ∈ extractColors (Except.ok ce), ∃ cl ∈ ce.clusters,
      c.confidence = (cl.2 : ℚ) / (((ce.clusters.map (fun x => x.2)).sum : ℕ) : ℚ)) := by
  refine ⟨?_, ?_, ?_, ?_, ?_, ?_⟩
  · intro h1
    unfold determineColorUsage
    rw [if_pos h1]
  · intro h1 h2
    unfold determineColorUsage
    rw [if_neg h1, if_pos h2]
  · intro h1 h2 h3
    unfold determineColorUsage
    rw [if_neg h1, if_neg h2, if_pos h3]
  · intro h1 h2 h3 h4
    unfold determineColorUsage
    rw [if_neg h1, if_neg h2, if_neg h3, if_pos h4]
  · intro h1 h2 h3 h4
    unfold determineColorUsage
    rw [if_neg h1, if_neg h2, if_neg h3, if_neg h4]
  · intro c hc
    obtain ⟨cl, hcl, rfl⟩ := extractColors_mem hc
    exact ⟨cl, hcl, rfl⟩

/-- C3 witness: the Background rule at proportion 2/5, the Primary/Accent
rule at a saturated color with proportion 1/5, and the confidence of the
samples emitted from a concrete two-cluster environment. -/
theorem C3_witness :
    determineColorUsage 0 0 0 (2/5) = "Background" ∧
    determineColorUsage 200 10 10 (1/5) = "Primary/Accent" ∧
    determineColorUsage 150 150 150 (1/20) = "Border/Divider" :=
  ⟨(C3_color_usage_rules 0 0 0 (2/5) ⟨[]⟩).1 (by norm_num),
   (C3_color_usage_rules 200 10 10 (1/5) ⟨[]⟩).2.2.1 (by norm_num) (by decide)
     (by refine ⟨by norm_num, by norm_num, by decide⟩),
   (C3_color_usage_rules 150 150 150 (1/20) ⟨[]⟩).2.2.2.1 (by norm_num) (by decide)
     (by intro h; exact absurd h.1 (by norm_num)) (by decide)⟩

/-- C4: the Layout Analyzer classifies grid exactly when both detected line
counts are at least 2, reporting (vertical-count + 1) columns and
(horizontal-count + 1) rows, and flexbox with no grid structure otherwise;
the responsive hint is the desktop one exactly when width exceeds 768; and
on internal failure it returns the flexbox descriptor with "unknown"
spacing and alignment instead of raising. -/
theorem C4_layout_rules (img : ImageData) (le : LayoutEnv) :
    (le.hLines.getD 0 ≥ 2 ∧ le.vLines.getD 0 ≥ 2 →
      (analyzeLayout img (Except.ok le)).layout_type = LayoutType.grid ∧
      (analyzeLayout img (Except.ok le)).grid_structure =
        some ("Estimated " ++ toString (le.vLines.getD 0 + 1) ++ " columns, " ++
          toString (le.hLines.getD 0 + 1) ++ " rows")) ∧
    (¬(le.hLines.getD 0 ≥ 2 ∧ le.vLines.getD 0 ≥ 2) →
      (analyzeLayout img (Except.ok le)).layout_type = LayoutType.flexbox ∧
      (analyzeLayout img (Except.ok le)).grid_structure = none) ∧
    (img.width > 768 →
      (analyzeLayout img (Except.ok le)).responsive_hints =
        some ["Desktop layout detected"]) ∧
    (¬ img.width > 768 →
      (analyzeLayout img (Except.ok le)).responsive_hints =
        some ["Mobile layout detected"]) ∧
    analyzeLayout img (Except.error ()) = layoutFailureDefault ∧
    layoutFailureDefault.layout_type = LayoutType.flexbox ∧
    layoutFailureDefault.grid_structure = none ∧
    layoutFailureDefault.spacing =
      [("padding", "unknown"), ("margin", "unknown"), ("gap", "unknown")] ∧
    layoutFailureDefault.alignment = "unknown" := by
  refine ⟨?_, ?_, ?_, ?_, rfl, rfl, rfl, rfl, rfl⟩
  · intro h
    constructor
    · simp only [analyzeLayout]
      rw [if_pos h]
    · simp only [analyzeLayout]
      rw [if_pos h]
  · intro h
    constructor
    · simp only [analyzeLayout]
      rw [if_neg h]
    · simp only [analyzeLayout]
      rw [if_neg h]
  · intro h
    simp only [analyzeLayout]
    rw [if_pos h]
  · intro h
    simp only [analyzeLayout]
    rw [if_neg h]

/-- C4 witness: a 3-horizontal / 2-vertical line detection on a 400-wide
image gives a grid with 3 columns and 4 rows and the mobile hint. -/
theorem C4_witness :
    (analyzeLayout ⟨200, 400, 3⟩ (Except.ok ⟨some 3, some 2⟩)).layout_type =
      LayoutType.grid ∧
    (analyzeLayout ⟨200, 400, 3⟩ (Except.ok ⟨some 3, some 2⟩)).grid_structure =
      some "Estimated 3 columns, 4 rows" ∧
    (analyzeLayout ⟨200, 400, 3⟩ (Except.ok ⟨some 3, some 2⟩)).responsive_hints =
      some ["Mobile layout detected"] := by
  have h := C4_layout_rules ⟨200, 400, 3⟩ ⟨some 3, some 2⟩
  refine ⟨(h.1 (by decide)).1, ?_, h.2.2.2.1 (by decide)⟩
  have h2 := (h.1 (by decide)).2
  simpa using h2

/-- C2: every successfully assembled response has at most 6 colors sorted by
non-increasing confidence, at most 10 typography entries, at most 15
interactive elements, at most 10 assets, and a confidence score in [0, 1]. -/
theorem C2_result_invariants (env : PipelineEnv) (filename : String) (elapsed : ℚ)
    (r : AnalysisResponse) (h : analyzeImage env filename elapsed = Except.ok r) :
    r.colors.length ≤ 6 ∧ List.Sorted confidenceGE r.colors ∧
    r.typography.length ≤ 10 ∧ r.interactive_elements.length ≤ 15 ∧
    r.assets.length ≤ 10 ∧ 0 ≤ r.confidence_score ∧ r.confidence_score ≤ 1 := by
  cases henv : env.image with
  | none =>
    simp only [analyzeImage, henv] at h
    exact Except.noConfusion h
  | some img =>
    simp only [analyzeImage, henv] at h
    rw [Except.ok.injEq] at h
    subst h
    have hcb := calculateConfidence_bounds (analyzeLayout img env.layoutEnv)
      (extractColors env.colorEnv) (analyzeTypography img env.typographyEnv)
      (detectInteractiveElements img env.elementEnv)
      (extractColors_confidence_bounds env.colorEnv)
    have hrb := pythonRound2_bounds hcb.1 hcb.2
    exact ⟨extractColors_length_le env.colorEnv, extractColors_sorted env.colorEnv,
      analyzeTypography_length_le img env.typographyEnv,
      detectInteractiveElements_length_le img env.elementEnv,
      catalogAssets_length_le env.assetEnv, hrb.1, hrb.2⟩

/-- C2 witness: the invariants hold for the concrete run on `sampleEnv`. -/
theorem C2_witness :
    analyzeImage sampleEnv "shot.png" 0 = Except.ok sampleResult ∧
    (sampleResult.colors.length ≤ 6 ∧ List.Sorted confidenceGE sampleResult.colors ∧
     sampleResult.typography.length ≤ 10 ∧
     sampleResult.interactive_elements.length ≤ 15 ∧
     sampleResult.assets.length ≤ 10 ∧ 0 ≤ sampleResult.confidence_score ∧
     sampleResult.confidence_score ≤ 1) :=
  have h : analyzeImage sampleEnv "shot.png" 0 = Except.ok sampleResult := by rfl
  ⟨h, C2_result_invariants sampleEnv "shot.png" 0 sampleResult h⟩

/-- C5: an interactive element is emitted exactly for the contours whose
area lies strictly between 500 and a tenth of the image area, kept in
contour-discovery order and capped at 15; an emitted element is classified
by aspect ratio and height with the button rule taking precedence over the
input rule, and container as the fallback. -/
theorem C5_element_rules (img : ImageData) (ee : ElementEnv) (w h : ℕ) :
    (detectInteractiveElements img (Except.ok ee) =
      ((ee.contours.filter (fun c => decide (elementAreaGate img c))).map
        elementOfContour).take 15) ∧
    (∀ c : ElemContour, elementAreaGate img c ↔
      (500 < c.area ∧ c.area < (img.width : ℚ) * (img.height : ℚ) * (1/10))) ∧
    (∀ c : ElemContour, (elementOfContour c).element_type = classifyElement c.w c.h) ∧
    (0 < h → (3/2 ≤ (w : ℚ) / (h : ℚ) ∧ (w : ℚ) / (h : ℚ) ≤ 6 ∧ 20 ≤ h ∧ h ≤ 100) →
      classifyElement w h = ElementType.button) ∧
    (0 < h → ¬(3/2 ≤ (w : ℚ) / (h : ℚ) ∧ (w : ℚ) / (h : ℚ) ≤ 6 ∧ 20 ≤ h ∧ h ≤ 100) →
      ((w : ℚ) / (h : ℚ) > 3 ∧ h ≤ 50) →
      classifyElement w h = ElementType.input) ∧
    (0 < h → ¬(3/2 ≤ (w : ℚ) / (h : ℚ) ∧ (w : ℚ) / (h : ℚ) ≤ 6 ∧ 20 ≤ h ∧ h ≤ 100) →
      ¬((w : ℚ) / (h : ℚ) > 3 ∧ h ≤ 50) →
      classifyElement w h = ElementType.container) ∧
    (detectInteractiveElements img (Except.ok ee)).length ≤ 15 := by
  refine ⟨rfl, fun c => Iff.rfl, fun c => rfl, ?_, ?_, ?_,
    detectInteractiveElements_length_le img (Except.ok ee)⟩
  · intro _ h1
    unfold classifyElement
    rw [if_pos h1]
  · intro _ h1 h2
    unfold classifyElement
    rw [if_neg h1, if_pos h2]
  · intro _ h1 h2
    unfold classifyElement
    rw [if_neg h1, if_neg h2]

/-- C5 witness: a 60×30 box is a button, a 400×45 box an input, a 10×200
box a container, and the concrete one-contour run emits one button. -/
theorem C5_witness :
    classifyElement 60 30 = ElementType.button ∧
    classifyElement 400 45 = ElementType.input ∧
    classifyElement 10 200 = ElementType.container ∧
    detectInteractiveElements ⟨200, 400, 3⟩
      (Except.ok ⟨[⟨600, 5, 5, 60, 30, "#ffffff"⟩]⟩) =
      ((([⟨600, 5, 5, 60, 30, "#ffffff"⟩] : List ElemContour).filter
        (fun c => decide (elementAreaGate ⟨200, 400, 3⟩ c))).map
          elementOfContour).take 15 :=
  ⟨(C5_element_rules ⟨200, 400, 3⟩ ⟨[]⟩ 60 30).2.2.2.1 (by norm_num)
     (by norm_num),
   (C5_element_rules ⟨200, 400, 3⟩ ⟨[]⟩ 400 45).2.2.2.2.1 (by norm_num)
     (by intro hc; exact absurd hc.2.1 (by norm_num)) (by norm_num),
   (C5_element_rules ⟨200, 400, 3⟩ ⟨[]⟩ 10 200).2.2.2.2.2.1 (by norm_num)
     (by intro hc; exact absurd hc.1 (by norm_num))
     (by intro hc; exact absurd hc.1 (by norm_num)),
   (C5_element_rules ⟨200, 400, 3⟩ ⟨[⟨600, 5, 5, 60, 30, "#ffffff"⟩]⟩ 0 1).1⟩

/-- C6: for every OCR token surviving the whitespace filter, the font size
is max(12, ⌊0.8 × box height⌋) pixels; sizes over 24 give heading/bold,
sizes in (18, 24] give subheading/semi-bold, and the rest body/normal; the
stored text is the stripped token truncated to 100 characters; and the
output keeps the first 10 tokens in scan order. -/
theorem C6_typography_rules (img : ImageData) (te : TypographyEnv) (t : OcrToken)
    (h : ℕ) :
    (fontSizeOfHeight h = max 12 (Nat.floor ((4/5 : ℚ) * (h : ℚ)))) ∧
    (fontSizeOfHeight t.height > 24 →
      (typographyOfToken img te.avgColor t).element_type = "heading" ∧
      (typographyOfToken img te.avgColor t).font_weight = "bold") ∧
    (18 < fontSizeOfHeight t.height ∧ fontSizeOfHeight t.height ≤ 24 →
      (typographyOfToken img te.avgColor t).element_type = "subheading" ∧
      (typographyOfToken img te.avgColor t).font_weight = "semi-bold") ∧
    (fontSizeOfHeight t.height ≤ 18 →
      (typographyOfToken img te.avgColor t).element_type = "body" ∧
      (typographyOfToken img te.avgColor t).font_weight = "normal") ∧
    ((typographyOfToken img te.avgColor t).text_content = t.text.trim.take 100) ∧
    ((typographyOfToken img te.avgColor t).font_size =
      toString (fontSizeOfHeight t.height) ++ "px") ∧
    (analyzeTypography img (Except.ok te) =
      ((te.tokens.filter (fun tok => tok.text.trim ≠ "")).map
        (typographyOfToken img te.avgColor)).take 10) ∧
    (analyzeTypography img (Except.ok te)).length ≤ 10 := by
  refine ⟨?_, ?_, ?_, ?_, ?_, ?_, rfl,
    analyzeTypography_length_le img (Except.ok te)⟩
  · unfold fontSizeOfHeight
    have e : ((4 : ℚ)/5) * (h : ℚ) = ((4 * h : ℕ) : ℚ) / ((5 : ℕ) : ℚ) := by
      push_cast
      ring
    rw [e, Nat.floor_div_nat, Nat.floor_natCast]
    congr 1
    omega
  · intro hfs
    constructor
    · simp only [typographyOfToken]
      rw [if_pos hfs]
    · simp only [typographyOfToken]
      rw [if_pos hfs]
  · intro hfs
    have hn : ¬ fontSizeOfHeight t.height > 24 := by omega
    constructor
    · simp only [typographyOfToken]
      rw [if_neg hn, if_pos hfs.1]
    · simp only [typographyOfToken]
      rw [if_neg hn, if_pos hfs.1]
  · intro hfs
    have hn : ¬ fontSizeOfHeight t.height > 24 := by omega
    have hn2 : ¬ fontSizeOfHeight t.height > 18 := by omega
    constructor
    · simp only [typographyOfToken]
      rw [if_neg hn, if_neg hn2]
    · simp only [typographyOfToken]
      rw [if_neg hn, if_neg hn2]
  · simp only [typographyOfToken]
  · simp only [typographyOfToken]

/-- C6 witness: a token with box height 30 gets font size 24 and is a
semi-bold subheading. -/
theorem C6_witness :
    fontSizeOfHeight 30 = max 12 (Nat.floor ((4/5 : ℚ) * (30 : ℚ))) ∧
    (typographyOfToken ⟨200, 400, 3⟩ (fun _ _ _ _ => "#123456")
      ⟨"Hello", 10, 10, 50, 30⟩).element_type = "subheading" ∧
    (typographyOfToken ⟨200, 400, 3⟩ (fun _ _ _ _ => "#123456")
      ⟨"Hello", 10, 10, 50, 30⟩).font_weight = "semi-bold" :=
  have hsub := (C6_typography_rules ⟨200, 400, 3⟩
    ⟨[], fun _ _ _ _ => "#123456"⟩ ⟨"Hello", 10, 10, 50, 30⟩ 30).2.2.1
    (by constructor <;> decide)
  ⟨(C6_typography_rules ⟨200, 400, 3⟩ ⟨[], fun _ _ _ _ => "#123456"⟩
      ⟨"Hello", 10, 10, 50, 30⟩ 30).1,
   hsub.1, hsub.2⟩

/-- C7: the overall confidence equals the unweighted mean of exactly the
applicable factors (0.8 for the layout kind, the mean color confidence when
colors is non-empty, 0.7 when typography is non-empty, 0.6 when elements is
non-empty), with the fixed neutral default 0.5 when no factor applies; an
empty typography list makes its factor drop out of the average rather than
contribute zero; and every layout kind has a non-empty name, so the layout
factor applies whenever a layout was produced. -/
theorem C7_confidence_spec (layout : LayoutStructure) (colors : List ColorInfo)
    (typography : List Typography) (elements : List InteractiveElement) :
    calculateConfidence layout colors typography elements =
      specConfidenceScore (layout.layout_type.value ≠ "")
        (colors.map (fun c => c.confidence)) typography.length elements.length ∧
    (∀ lt : LayoutType, lt.value ≠ "") := by
  constructor
  · simp only [calculateConfidence, specConfidenceScore, List.map_eq_nil_iff,
      List.length_map, List.length_eq_zero, ne_eq, ite_not]
  · intro lt
    cases lt <;> simp [LayoutType.value]

/-- C7 witness: instantiation at the failure-default layout and empty
stage outputs. -/
theorem C7_witness :
    calculateConfidence layoutFailureDefault [] [] [] =
      specConfidenceScore (layoutFailureDefault.layout_type.value ≠ "")
        (([] : List ColorInfo).map (fun c => c.confidence)) 0 0 ∧
    (∀ lt : LayoutType, lt.value ≠ "") :=
  C7_confidence_spec layoutFailureDefault [] [] []

/-- C8: the classifier answers true exactly when the aspect ratio lies in
[0.5, 3], at least 3 contours are 4-vertex polygons with area above 1% of
the image, and the image is at least 300×200; it fails open to true; and
the classifier's verdict only determines the warnings list — it never
aborts the analysis or alters any other part of the result. -/
theorem C8_screenshot_rules (img : ImageData) (se : ScreenshotEnv)
    (env : PipelineEnv) (se1 se2 : Except Unit ScreenshotEnv)
    (filename : String) (elapsed : ℚ) :
    (0 < img.height →
      (isWebsiteScreenshot img (Except.ok se) = true ↔
        (1/2 ≤ (img.width : ℚ) / (img.height : ℚ) ∧
         (img.width : ℚ) / (img.height : ℚ) ≤ 3 ∧
         countRectangularRegions img se.contours ≥ 3 ∧
         img.width ≥ 300 ∧ img.height ≥ 200))) ∧
    (countRectangularRegions img se.contours =
      (se.contours.filter (fun c => decide (c.1 = 4 ∧
        c.2 > (img.width : ℚ) * (img.height : ℚ) * (1/100)))).length) ∧
    isWebsiteScreenshot img (Except.error ()) = true ∧
    (Except.map (fun r => { r with warnings := ([] : List String) })
        (analyzeImage { env with screenshotEnv := se1 } filename elapsed) =
      Except.map (fun r => { r with warnings := ([] : List String) })
        (analyzeImage { env with screenshotEnv := se2 } filename elapsed)) ∧
    (∀ img2, env.image = some img2 → ∀ r,
      analyzeImage env filename elapsed = Except.ok r →
      r.warnings = (if isWebsiteScreenshot img2 env.screenshotEnv then []
        else ["Image may not be a website/app screenshot"])) := by
  refine ⟨?_, rfl, rfl, ?_, ?_⟩
  · intro _
    simp [isWebsiteScreenshot]
  · cases henv : env.image with
    | none => simp [analyzeImage, henv]
    | some img2 =>
      simp only [analyzeImage, henv, Except.map, generateFullPrompt]
  · intro img2 henv r h
    simp only [analyzeImage, henv] at h
    rw [Except.ok.injEq] at h
    subst h
    by_cases hW : isWebsiteScreenshot img2 env.screenshotEnv = true <;>
      simp [hW]

/-- C8 witness: a 400×200 image with three large quadrilateral contours is
classified as a screenshot. -/
theorem C8_witness :
    isWebsiteScreenshot ⟨200, 400, 3⟩
      (Except.ok ⟨[(4, 900), (4, 900), (4, 900)]⟩) = true :=
  ((C8_screenshot_rules ⟨200, 400, 3⟩ ⟨[(4, 900), (4, 900), (4, 900)]⟩
    sampleEnv (Except.error ()) (Except.ok ⟨[]⟩) "shot.png" 0).1
    (by norm_num)).mpr
    (by refine ⟨by norm_num, by norm_num, ?_, by norm_num, by norm_num⟩
        show countRectangularRegions ⟨200, 400, 3⟩ [(4, 900), (4, 900), (4, 900)] ≥ 3
        norm_num [countRectangularRegions])

/-- C10: for every successfully decoded image the warnings list has at most
one entry, the only possible warning is the fixed screenshot caveat, and it
is present exactly when the screenshot classifier answered false. -/
theorem C10_warnings_invariant (env : PipelineEnv) (filename : String)
    (elapsed : ℚ) (img : ImageData) (r : AnalysisResponse)
    (henv : env.image = some img)
    (h : analyzeImage env filename elapsed = Except.ok r) :
    r.warnings.length ≤ 1 ∧
    (∀ w ∈ r.warnings, w = "Image may not be a website/app screenshot") ∧
    (r.warnings = ["Image may not be a website/app screenshot"] ↔
      isWebsiteScreenshot img env.screenshotEnv = false) := by
  simp only [analyzeImage, henv] at h
  rw [Except.ok.injEq] at h
  subst h
  by_cases hW : isWebsiteScreenshot img env.screenshotEnv = true <;> simp [hW]

/-- C10 witness: the concrete run on `sampleEnv` (whose classifier answers
true) has an empty warnings list. -/
theorem C10_witness :
    sampleResult.warnings.length ≤ 1 ∧
    (∀ w ∈ sampleResult.warnings,
      w = "Image may not be a website/app screenshot") ∧
    (sampleResult.warnings = ["Image may not be a website/app screenshot"] ↔
      isWebsiteScreenshot ⟨200, 400, 3⟩ sampleEnv.screenshotEnv = false) :=
  C10_warnings_invariant sampleEnv "shot.png" 0 ⟨200, 400, 3⟩ sampleResult
    rfl (by rfl)

/-- C9 counterexample: two runs on the same environment whose measured
durations differ (0 s and 1 s) produce results that differ not only in
`processing_time`: the `generated_prompt` field also differs, because its
metadata entry `processing_time_seconds` records the rounded duration.
This refutes the claim that the two results are identical in every field
except `processing_time`. -/
theorem C9_counterexample :
    ((analyzeImage sampleEnv "shot.png" 0).toOption.map
        (fun r => r.generated_prompt.map (fun p => p.metadata.get? 1)) =
      some (some (some ("processing_time_seconds", MetaVal.num (pythonRound2 0))))) ∧
    ((analyzeImage sampleEnv "shot.png" 1).toOption.map
        (fun r => r.generated_prompt.map (fun p => p.metadata.get? 1)) =
      some (some (some ("processing_time_seconds", MetaVal.num (pythonRound2 1))))) ∧
    ((analyzeImage sampleEnv "shot.png" 0).toOption.map
        (fun r => r.generated_prompt.map (fun p => p.metadata.get? 1)) ≠
      (analyzeImage sampleEnv "shot.png" 1).toOption.map
        (fun r => r.generated_prompt.map (fun p => p.metadata.get? 1))) := by
  have hr0 : pythonRound2 0 = 0 := by norm_num [pythonRound2]
  have hr1 : pythonRound2 1 = 1 := by norm_num [pythonRound2]
  have e1 : (analyzeImage sampleEnv "shot.png" 0).toOption.map
      (fun r => r.generated_prompt.map (fun p => p.metadata.get? 1)) =
      some (some (some ("processing_time_seconds", MetaVal.num (pythonRound2 0)))) := rfl
  have e2 : (analyzeImage sampleEnv "shot.png" 1).toOption.map
      (fun r => r.generated_prompt.map (fun p => p.metadata.get? 1)) =
      some (some (some ("processing_time_seconds", MetaVal.num (pythonRound2 1)))) := rfl
  refine ⟨e1, e2, ?_⟩
  intro h
  rw [e1, e2] at h
  simp only [Option.some.injEq, Prod.mk.injEq, MetaVal.num.injEq] at h
  rw [hr0, hr1] at h
  exact absurd h.2 (by norm_num)

/-- C9 (amended): two runs on the same decoded input agree on every field
except `processing_time` and `generated_prompt` (the latter embeds the
recorded duration in its metadata), and when the rounded durations coincide
the two results are identical in every field. -/
theorem C9_deterministic_modulo_time (env : PipelineEnv) (filename : String)
    (t1 t2 : ℚ) (r1 r2 : AnalysisResponse)
    (h1 : analyzeImage env filename t1 = Except.ok r1)
    (h2 : analyzeImage env filename t2 = Except.ok r2) :
    (r1.layout = r2.layout ∧ r1.colors = r2.colors ∧
     r1.typography = r2.typography ∧
     r1.interactive_elements = r2.interactive_elements ∧
     r1.assets = r2.assets ∧ r1.global_styles = r2.global_styles ∧
     r1.style_guide = r2.style_guide ∧
     r1.component_labels = r2.component_labels ∧
     r1.image_info = r2.image_info ∧
     r1.confidence_score = r2.confidence_score ∧
     r1.warnings = r2.warnings) ∧
    (pythonRound2 t1 = pythonRound2 t2 → r1 = r2) := by
  cases henv : env.image with
  | none =>
    simp only [analyzeImage, henv] at h1
    exact Except.noConfusion h1
  | some img =>
    simp only [analyzeImage, henv] at h1 h2
    rw [Except.ok.injEq] at h1
    rw [Except.ok.injEq] at h2
    subst h1
    subst h2
    refine ⟨⟨rfl, rfl, rfl, rfl, rfl, rfl, rfl, rfl, rfl, rfl, rfl⟩, ?_⟩
    intro hrt
    rw [hrt]

/-- C9 witness: two runs with identical measured durations on `sampleEnv`
give identical results. -/
theorem C9_witness :
    (sampleResult.layout = sampleResult.layout ∧
     sampleResult.colors = sampleResult.colors ∧
     sampleResult.typography = sampleResult.typography ∧
     sampleResult.interactive_elements = sampleResult.interactive_elements ∧
     sampleResult.assets = sampleResult.assets ∧
     sampleResult.global_styles = sampleResult.global_styles ∧
     sampleResult.style_guide = sampleResult.style_guide ∧
     sampleResult.component_labels = sampleResult.component_labels ∧
     sampleResult.image_info = sampleResult.image_info ∧
     sampleResult.confidence_score = sampleResult.confidence_score ∧
     sampleResult.warnings = sampleResult.warnings) ∧
    (pythonRound2 0 = pythonRound2 0 → sampleResult = sampleResult) :=
  C9_deterministic_modulo_time sampleEnv "shot.png" 0 0
    sampleResult sampleResult (by rfl) (by rfl)
